import Mathlib

/-!
Verification development for `sql_generation_inference.py`, a Modal app that
serves the SQLCoder2 model behind a Text Generation Inference (TGI) webserver.

We shallowly embed the pure observable behaviour of the module:
* the readiness-polling loop of `Model.__enter__` (the local `webserver_ready`
  helper and the `while not webserver_ready(): time.sleep(1.0)` loop),
* prompt construction (`PROMPT_TEMPLATE`, `METADATA_DEFAULT`,
  `generate_prompt`, which delegates to Python's `str.format`),
* the request structure and result handling of `Model.generate` and
  `Model.generate_stream`,
* the `Model.__exit__` / `Popen.terminate` shutdown path.

Side effects are made explicit: the poll loop is run against a trace of
per-attempt outcomes, the TGI client is an oracle function, and fallible
operations return `Option`/`Except`.
-/

/- ## Readiness polling (`Model.__enter__`, lines 131-146)

Each call of the inner `webserver_ready()` has one of three observable
outcomes: the TCP connect to 127.0.0.1:8000 succeeds (`connectOk`); it fails
with `socket.timeout`/`ConnectionRefusedError` while `self.launcher.poll()`
reports the subprocess still running (`refusedRunning`); or it fails and
`poll()` returns an exit code (`refusedExited retcode`). -/

/-- Observable outcome of a single `webserver_ready()` attempt. -/
inductive PollOutcome
  | connectOk
  | refusedRunning
  | refusedExited (retcode : Int)
deriving DecidableEq

/-- How a run of the `while not webserver_ready(): time.sleep(1.0)` loop ends
on a finite trace of attempt outcomes: the webserver became reachable
(`ready`), the `RuntimeError` carrying the launcher's exit code was raised
(`launchFailure`), or the trace was exhausted with the loop still going
(`stillPolling`). -/
inductive RunResult
  | ready
  | launchFailure (retcode : Int)
  | stillPolling
deriving DecidableEq

/-- The readiness loop of `Model.__enter__`, run against a trace of
per-attempt outcomes. On `connectOk` the helper returns `True` and the loop
exits; on `refusedExited c` the helper raises
`RuntimeError(f"launcher exited unexpectedly with code {retcode}")`, modelled
as `launchFailure c`; on `refusedRunning` the helper returns `False`, the
loop sleeps one second and retries. -/
def awaitReadyRun : List PollOutcome → RunResult
  | [] => .stillPolling
  | .connectOk :: _ => .ready
  | .refusedExited c :: _ => .launchFailure c
  | .refusedRunning :: rest => awaitReadyRun rest

/-- Number of `webserver_ready()` calls the loop performs on a trace. -/
def pollsUsed : List PollOutcome → Nat
  | [] => 0
  | .connectOk :: _ => 1
  | .refusedExited _ :: _ => 1
  | .refusedRunning :: rest => pollsUsed rest + 1

/-- Number of `time.sleep(1.0)` calls the loop performs on a trace: one after
every attempt that returned `False`, none after the attempt that succeeds or
raises. -/
def sleepsUsed : List PollOutcome → Nat
  | [] => 0
  | .connectOk :: _ => 0
  | .refusedExited _ :: _ => 0
  | .refusedRunning :: rest => sleepsUsed rest + 1

/- ## Python `str.format` (used by `generate_prompt`, lines 241-247)

`prompt_template.format(user_question=..., table_metadata_string=...)` parses
the template once, left to right, into literal runs and replacement fields,
then concatenates the literals with the looked-up values. The template uses
only simple named fields with no conversion or format spec; we embed exactly
that fragment, with `none` for the errors `str.format` raises (an unmatched
brace, or a field name missing from the keyword arguments). -/

/-- Prepend a literal run, merging with a leading literal segment. -/
def consLit (s : String) : List (String ⊕ String) → List (String ⊕ String)
  | Sum.inl t :: rest => Sum.inl (s ++ t) :: rest
  | xs => Sum.inl s :: xs

/-- Scanner for a format string. The first argument is the mode: `none` while
inside literal text, `some acc` while inside a replacement field whose name so
far is `acc`. Produces literal segments (`Sum.inl`) and replacement field
names (`Sum.inr`), honouring the `\x7b\x7b`/`\x7d\x7d` escapes; `none` on an
unmatched brace. -/
def parseFormatAux : Option String → List Char → Option (List (String ⊕ String))
  | none, [] => some []
  | none, '{' :: '{' :: rest => (parseFormatAux none rest).map (consLit "\x7b")
  | none, '{' :: rest => parseFormatAux (some "") rest
  | none, '}' :: '}' :: rest => (parseFormatAux none rest).map (consLit "\x7d")
  | none, '}' :: _ => none
  | none, c :: rest => (parseFormatAux none rest).map (consLit (String.mk [c]))
  | some _, [] => none
  | some acc, '}' :: rest => (parseFormatAux none rest).map (Sum.inr acc :: ·)
  | some acc, c :: rest => parseFormatAux (some (acc ++ String.mk [c])) rest

/-- Parse a format string into literal segments and replacement field names. -/
def parseFormat (l : List Char) : Option (List (String ⊕ String)) :=
  parseFormatAux none l

/-- Concatenate parsed segments, substituting each field via `vals`;
`none` when a field name is missing (Python's `KeyError`). -/
def fillFormat (vals : String → Option String) : List (String ⊕ String) → Option String
  | [] => some ""
  | Sum.inl s :: rest => (fillFormat vals rest).map (fun t => s ++ t)
  | Sum.inr f :: rest =>
    match vals f with
    | none => none
    | some v => (fillFormat vals rest).map (fun t => v ++ t)

/-- Embedding of `template.format(**vals)` for the simple-named-field fragment. -/
def pyFormat (template : String) (vals : String → Option String) : Option String :=
  (parseFormat template.data).bind (fillFormat vals)

/- ## The prompt template and default schema (lines 184-239) -/

/-- The constant `PROMPT_TEMPLATE` from the source, byte for byte. -/
def PROMPT_TEMPLATE : String :=
  "### Task\nGenerate a SQL query to answer the following question:\n`{user_question}`\n\n### Database Schema\nThe query will run on a database with the following schema:\n{table_metadata_string}\n\n### SQL\nFollow these steps to create the SQL Query:\n1. Only use the columns and tables present in the database schema\n2. Use table aliases to prevent ambiguity when doing joins. For example, `SELECT table1.col1, table2.col1 FROM table1 JOIN table2 ON table1.id = table2.id`.\n\nGiven the database schema, here is the SQL query that answers `{user_question}`:\n```sql\n"

/-- The constant `METADATA_DEFAULT` from the source, byte for byte (including the
trailing blanks some lines carry). -/
def METADATA_DEFAULT : String :=
  "CREATE TABLE products (\n  product_id INTEGER PRIMARY KEY, -- Unique ID for each product\n  name VARCHAR(50), -- Name of the product\n  price DECIMAL(10,2), -- Price of each unit of the product\n  quantity INTEGER  -- Current quantity in stock\n);\n\nCREATE TABLE customers (\n   customer_id INTEGER PRIMARY KEY, -- Unique ID for each customer\n   name VARCHAR(50), -- Name of the customer\n   address VARCHAR(100) -- Mailing address of the customer\n);\n\nCREATE TABLE salespeople (\n  salesperson_id INTEGER PRIMARY KEY, -- Unique ID for each salesperson \n  name VARCHAR(50), -- Name of the salesperson\n  region VARCHAR(50) -- Geographic sales region \n);\n\nCREATE TABLE sales (\n  sale_id INTEGER PRIMARY KEY, -- Unique ID for each sale\n  product_id INTEGER, -- ID of product sold\n  customer_id INTEGER,  -- ID of customer who made purchase\n  salesperson_id INTEGER, -- ID of salesperson who made the sale\n  sale_date DATE, -- Date the sale occurred \n  quantity INTEGER -- Quantity of product sold\n);\n\nCREATE TABLE product_suppliers (\n  supplier_id INTEGER PRIMARY KEY, -- Unique ID for each supplier\n  product_id INTEGER, -- Product ID supplied\n  supply_price DECIMAL(10,2) -- Unit price charged by supplier\n);\n\n-- sales.product_id can be joined with products.product_id\n-- sales.customer_id can be joined with customers.customer_id \n-- sales.salesperson_id can be joined with salespeople.salesperson_id\n-- product_suppliers.product_id can be joined with products.product_id\n"

/-- The keyword arguments `generate_prompt` passes to `format`. -/
def formatVals (question metadata : String) : String → Option String
  | "user_question" => some question
  | "table_metadata_string" => some metadata
  | _ => none

/-- The function `generate_prompt(question, prompt_template, metadata)` (lines 241-247):
renders `prompt_template` with `user_question=question` and
`table_metadata_string=metadata`. The `print` calls have no observable
effect on the result. -/
def generate_prompt (question prompt_template metadata : String) : Option String :=
  pyFormat prompt_template (formatVals question metadata)

/- The four literal runs of `PROMPT_TEMPLATE`, as cut by its three
replacement fields (two `user_question` fields, one
`table_metadata_string` field). -/

/-- Literal run of `PROMPT_TEMPLATE` before the first `user_question` field. -/
def SEG0 : String :=
  "### Task\nGenerate a SQL query to answer the following question:\n`"

/-- Literal run between the first `user_question` field and the
`table_metadata_string` field. -/
def SEG1 : String :=
  "`\n\n### Database Schema\nThe query will run on a database with the following schema:\n"

/-- Literal run between the `table_metadata_string` field and the second
`user_question` field. -/
def SEG2 : String :=
  "\n\n### SQL\nFollow these steps to create the SQL Query:\n1. Only use the columns and tables present in the database schema\n2. Use table aliases to prevent ambiguity when doing joins. For example, `SELECT table1.col1, table2.col1 FROM table1 JOIN table2 ON table1.id = table2.id`.\n\nGiven the database schema, here is the SQL query that answers `"

/-- Literal run after the second `user_question` field. -/
def SEG3 : String :=
  "`:\n```sql\n"

set_option maxRecDepth 10000 in
/-- Parsing `PROMPT_TEMPLATE` yields its four literal runs around one
`table_metadata_string` field and two `user_question` fields. -/
theorem parseFormat_template :
    parseFormat PROMPT_TEMPLATE.data =
      some [Sum.inl SEG0, Sum.inr "user_question", Sum.inl SEG1,
        Sum.inr "table_metadata_string", Sum.inl SEG2,
        Sum.inr "user_question", Sum.inl SEG3] := by
  decide

/- ## Substring helpers, for stating containment and occurrence counts -/

/-- Tests whether `needle` is a leading run of `hay`. -/
def leadsWith : List Char → List Char → Bool
  | [], _ => true
  | _ :: _, [] => false
  | a :: as, b :: bs => a = b && leadsWith as bs

/-- Number of positions of `hay` at which `needle` occurs (occurrences may
overlap; for a nonempty needle this is the usual substring-occurrence
count). -/
def countOccur (needle : List Char) : List Char → Nat
  | [] => 0
  | c :: rest => (if leadsWith needle (c :: rest) then 1 else 0) + countOccur needle rest

/- ## The TGI client calls of `Model.generate` and `Model.generate_stream`
(lines 153-171)

Both methods render the prompt with `generate_prompt(question,
metadata=metadata)` and call the `text_generation` client with it and
`max_new_tokens=1024`. The client is embedded as an oracle function from the
request it receives to the (fallible) result; the outer `Option` is the
prompt-rendering step, which never returns `none` for the fixed template. -/

/-- One token of a TGI streaming response, with its `text` and `special`
flags as exposed by the `text_generation` client. -/
structure Token where
  text : String
  special : Bool

/-- One element of the stream returned by `client.generate_stream`. -/
structure StreamResponse where
  token : Token

/-- Result of the blocking `client.generate` call. -/
structure GenerateResult where
  generated_text : String

/-- The arguments `Model.generate` / `Model.generate_stream` pass to the
client: the rendered prompt and the fixed `max_new_tokens=1024`. -/
structure ClientRequest where
  prompt : String
  max_new_tokens : Nat
deriving DecidableEq

/-- Request sent by `Model.generate` (line 157): the prompt rendered by
`generate_prompt(question, metadata=metadata)` with `max_new_tokens=1024`. -/
def generate_request (question metadata : String) : Option ClientRequest :=
  (generate_prompt question PROMPT_TEMPLATE metadata).map
    (fun p => ClientRequest.mk p 1024)

/-- Request sent by `Model.generate_stream` (lines 166-169), built the same
way. -/
def generate_stream_request (question metadata : String) : Option ClientRequest :=
  (generate_prompt question PROMPT_TEMPLATE metadata).map
    (fun p => ClientRequest.mk p 1024)

/-- Body of `Model.generate` (lines 153-162): render the prompt, call the
client once with it, and return the result's `generated_text`; a client error
is not caught and propagates unchanged. -/
def Model.generate {ε : Type} (client : ClientRequest → Except ε GenerateResult)
    (question metadata : String) : Option (Except ε String) :=
  (generate_request question metadata).map (fun req =>
    match client req with
    | .error e => .error e
    | .ok result => .ok result.generated_text)

/-- The `async for` body of `Model.generate_stream` (lines 167-171): yield
`response.token.text` for every response whose token is not `special`, in
arrival order, until the stream ends. -/
def generate_stream_yields : List StreamResponse → List String
  | [] => []
  | r :: rest =>
    if r.token.special then generate_stream_yields rest
    else r.token.text :: generate_stream_yields rest

/-- Body of `Model.generate_stream` (lines 164-171): render the prompt, call
the streaming client once with it, and yield the non-special token texts; a
client error is not caught and propagates unchanged. -/
def Model.generate_stream {ε : Type}
    (client : ClientRequest → Except ε (List StreamResponse))
    (question metadata : String) : Option (Except ε (List String)) :=
  (generate_stream_request question metadata).map (fun req =>
    match client req with
    | .error e => .error e
    | .ok responses => .ok (generate_stream_yields responses))

/-- Modelled from the spec for comparison with `generate_stream_yields`: "the
text of the tokens not flagged special, in the same order in which they
arrived". -/
def specStreamOutput (responses : List StreamResponse) : List String :=
  (responses.filter (fun r => !r.token.special)).map (fun r => r.token.text)

/- ## Shutdown: `Model.__exit__` (lines 150-151) -/

/-- State of the launched `text-generation-launcher` child process as seen
through `Popen`: `exitCode` is `none` while it is still running. -/
structure LauncherProc where
  exitCode : Option Int

/-- Observable effect of one `terminate()` call. -/
inductive TermEffect
  | sentSigterm
  | noop
deriving DecidableEq

/-- Errors `os.kill` could raise; kept in the type so that "never raises" is
a statement, not a typing accident. -/
inductive OSError
  | processLookup
deriving DecidableEq

/-- Modelled from `subprocess.Popen.terminate` semantics: `send_signal`
first polls the child; if it has already exited, it returns without
signalling; otherwise it delivers SIGTERM, which cannot fail because the
launcher is our own child and its pid stays valid (as a zombie) until
reaped. In neither case does it raise. -/
def LauncherProc.terminate (p : LauncherProc) : Except OSError TermEffect :=
  match p.exitCode with
  | some _ => .ok .noop
  | none => .ok .sentSigterm

/-- Body of `Model.__exit__` (lines 150-151): `self.launcher.terminate()`. -/
def Model.stop (p : LauncherProc) : Except OSError TermEffect :=
  p.terminate

/- ## Helper lemmas -/

/-- Looking up `user_question` in the keyword arguments gives the question. -/
theorem formatVals_user_question (q m : String) :
    formatVals q m "user_question" = some q := rfl

/-- Looking up `table_metadata_string` gives the metadata. -/
theorem formatVals_table_metadata (q m : String) :
    formatVals q m "table_metadata_string" = some m := rfl

set_option maxRecDepth 10000 in
/-- Rendering the fixed template yields its four literal runs with the
question spliced in twice and the metadata once. -/
theorem render_prompt_eq (q m : String) :
    generate_prompt q PROMPT_TEMPLATE m =
      some (SEG0 ++ (q ++ (SEG1 ++ (m ++ (SEG2 ++ (q ++ SEG3)))))) := by
  show (parseFormat PROMPT_TEMPLATE.data).bind (fillFormat (formatVals q m)) = _
  rw [parseFormat_template]
  rfl

/-- The loop body of `generate_stream` computes exactly the spec's
description: the texts of the non-special tokens in arrival order. -/
theorem generate_stream_yields_eq_spec (responses : List StreamResponse) :
    generate_stream_yields responses = specStreamOutput responses := by
  induction responses with
  | nil => rfl
  | cons r rest ih =>
    cases h : r.token.special with
    | true => simp [generate_stream_yields, specStreamOutput, List.filter_cons, h, ih]
    | false => simp [generate_stream_yields, specStreamOutput, List.filter_cons, h, ih]

/- ## The claims -/

set_option maxRecDepth 10000 in
/-- C1 (amended): for every pair of strings, `generate_prompt` with the fixed
template is deterministic and returns exactly the template's literal runs with
the question substituted verbatim at the template's two `user_question`
substitution points and the metadata at its single `table_metadata_string`
point — otherwise byte-identical to the template, whose literal runs the four
segment constants reassemble. (The claim's "each input exactly once" fails:
the template designates two substitution points for the question.) -/
theorem C1_render_prompt_structure (q m : String) :
    generate_prompt q PROMPT_TEMPLATE m =
      some (SEG0 ++ (q ++ (SEG1 ++ (m ++ (SEG2 ++ (q ++ SEG3)))))) ∧
    SEG0 ++ ("{user_question}" ++ (SEG1 ++ ("{table_metadata_string}" ++
      (SEG2 ++ ("{user_question}" ++ SEG3))))) = PROMPT_TEMPLATE :=
  ⟨render_prompt_eq q m, by decide⟩

set_option maxRecDepth 10000 in
/-- C1 counterexample: with question `"XQUESTIONX"` and metadata
`"YMETADATAY"` the rendered prompt contains the question at two positions,
refuting "contains each of the two input strings exactly once". -/
theorem C1_counterexample :
    (generate_prompt "XQUESTIONX" PROMPT_TEMPLATE "YMETADATAY").map
        (fun p => countOccur "XQUESTIONX".data p.data) = some 2 ∧
    ¬ ((generate_prompt "XQUESTIONX" PROMPT_TEMPLATE "YMETADATAY").map
        (fun p => countOccur "XQUESTIONX".data p.data) = some 1) := by
  constructor <;> decide

/-- C2: the readiness loop returns `Ready` only when some performed attempt's
TCP connect actually succeeded, and on a trace whose very first attempt
connects it returns `Ready` after exactly that one poll with zero sleeps. -/
theorem C2_ready_requires_connect (t : List PollOutcome) :
    (awaitReadyRun t = RunResult.ready →
      ∃ i, i < pollsUsed t ∧ t.get? i = some PollOutcome.connectOk) ∧
    (awaitReadyRun (PollOutcome.connectOk :: t) = RunResult.ready ∧
      pollsUsed (PollOutcome.connectOk :: t) = 1 ∧
      sleepsUsed (PollOutcome.connectOk :: t) = 0) := by
  refine ⟨?_, rfl, rfl, rfl⟩
  induction t with
  | nil =>
    intro h
    simp [awaitReadyRun] at h
  | cons o rest ih =>
    cases o with
    | connectOk =>
      intro _
      exact ⟨0, Nat.zero_lt_one, rfl⟩
    | refusedRunning =>
      intro h
      obtain ⟨i, hi, hget⟩ := ih h
      exact ⟨i + 1, Nat.succ_lt_succ hi, hget⟩
    | refusedExited c =>
      intro h
      simp [awaitReadyRun] at h

/-- Witness for C2 on the one-attempt trace that connects immediately. -/
theorem C2_ready_requires_connect_witness :
    ∃ i, i < pollsUsed [PollOutcome.connectOk] ∧
      [PollOutcome.connectOk].get? i = some PollOutcome.connectOk :=
  (C2_ready_requires_connect [PollOutcome.connectOk]).1 (by decide)

/-- C3: when every earlier attempt failed with the launcher still running and
the current attempt fails with the launcher exited with code `n`, the loop
raises the `RuntimeError` carrying `n` on that same attempt: it has polled
exactly `k.length + 1` times — whatever the rest of the trace holds, so no
further polling happens — and slept only `k.length` times. -/
theorem C3_launch_failure_is_final (k post : List PollOutcome) (n : Int)
    (h : ∀ o ∈ k, o = PollOutcome.refusedRunning) :
    awaitReadyRun (k ++ PollOutcome.refusedExited n :: post) =
      RunResult.launchFailure n ∧
    pollsUsed (k ++ PollOutcome.refusedExited n :: post) = k.length + 1 ∧
    sleepsUsed (k ++ PollOutcome.refusedExited n :: post) = k.length := by
  induction k with
  | nil => exact ⟨rfl, rfl, rfl⟩
  | cons o rest ih =>
    have ho : o = PollOutcome.refusedRunning := h o (List.mem_cons_self o rest)
    subst ho
    have ih' := ih (fun o' ho' => h o' (List.mem_cons_of_mem _ ho'))
    refine ⟨ih'.1, ?_, ?_⟩
    · show pollsUsed (rest ++ PollOutcome.refusedExited n :: post) + 1 = rest.length + 1 + 1
      rw [ih'.2.1]
    · show sleepsUsed (rest ++ PollOutcome.refusedExited n :: post) + 1 = rest.length + 1
      rw [ih'.2.2]

/-- Witness for C3: one still-running failure, then an exit with code 3. -/
theorem C3_launch_failure_is_final_witness :
    awaitReadyRun ([PollOutcome.refusedRunning] ++
        PollOutcome.refusedExited 3 :: [PollOutcome.connectOk]) =
      RunResult.launchFailure 3 ∧
    pollsUsed ([PollOutcome.refusedRunning] ++
        PollOutcome.refusedExited 3 :: [PollOutcome.connectOk]) =
      [PollOutcome.refusedRunning].length + 1 ∧
    sleepsUsed ([PollOutcome.refusedRunning] ++
        PollOutcome.refusedExited 3 :: [PollOutcome.connectOk]) =
      [PollOutcome.refusedRunning].length :=
  C3_launch_failure_is_final [PollOutcome.refusedRunning] [PollOutcome.connectOk] 3
    (by decide)

/-- C4: on a trace of `K` consecutive refused-but-still-running attempts the
loop neither returns nor fails — it is still polling — having slept the fixed
one-second interval exactly `K` times after its `K` polls; no timeout error
arises from elapsed time alone. -/
theorem C4_no_timeout (K : Nat) :
    awaitReadyRun (List.replicate K PollOutcome.refusedRunning) =
      RunResult.stillPolling ∧
    sleepsUsed (List.replicate K PollOutcome.refusedRunning) = K ∧
    pollsUsed (List.replicate K PollOutcome.refusedRunning) = K := by
  induction K with
  | zero => exact ⟨rfl, rfl, rfl⟩
  | succ n ih =>
    refine ⟨?_, ?_, ?_⟩ <;>
      simp [List.replicate_succ, awaitReadyRun, sleepsUsed, pollsUsed,
        ih.1, ih.2.1, ih.2.2]

/-- C5: for every finite sequence of token responses from the streaming
client call, `generate_stream` produces exactly the texts of the tokens not
flagged special, in arrival order, and terminates when the stream does. -/
theorem C5_stream_order (ε : Type) (q m : String) (responses : List StreamResponse) :
    Model.generate_stream
        (fun _ => (Except.ok responses : Except ε (List StreamResponse))) q m =
      some (Except.ok (specStreamOutput responses)) := by
  simp [Model.generate_stream, generate_stream_request, render_prompt_eq,
    generate_stream_yields_eq_spec]

/-- C6: for the question "How many salespeople are there?" and the default
schema, the rendered prompt begins with "### Task\nGenerate a SQL query",
contains the literal question string and the full schema text, and ends with
the open code fence. -/
theorem C6_salespeople_prompt :
    ∃ p, generate_prompt "How many salespeople are there?" PROMPT_TEMPLATE
        METADATA_DEFAULT = some p ∧
      (∃ rest, p = "### Task\nGenerate a SQL query" ++ rest) ∧
      (∃ a b, p = a ++ ("How many salespeople are there?" ++ b)) ∧
      (∃ a b, p = a ++ (METADATA_DEFAULT ++ b)) ∧
      (∃ a, p = a ++ "```sql\n") := by
  refine ⟨_, render_prompt_eq _ _, ?_, ?_, ?_, ?_⟩
  · refine ⟨" to answer the following question:\n`" ++
      ("How many salespeople are there?" ++ (SEG1 ++ (METADATA_DEFAULT ++
        (SEG2 ++ ("How many salespeople are there?" ++ SEG3))))), ?_⟩
    rw [show SEG0 = "### Task\nGenerate a SQL query" ++
      " to answer the following question:\n`" from rfl]
    simp only [String.append_assoc]
  · exact ⟨SEG0, SEG1 ++ (METADATA_DEFAULT ++ (SEG2 ++
      ("How many salespeople are there?" ++ SEG3))), rfl⟩
  · refine ⟨SEG0 ++ ("How many salespeople are there?" ++ SEG1),
      SEG2 ++ ("How many salespeople are there?" ++ SEG3), ?_⟩
    simp only [String.append_assoc]
  · refine ⟨SEG0 ++ ("How many salespeople are there?" ++ (SEG1 ++
      (METADATA_DEFAULT ++ (SEG2 ++ ("How many salespeople are there?" ++
        "`:\n"))))), ?_⟩
    rw [show SEG3 = "`:\n" ++ "```sql\n" from rfl]
    simp only [String.append_assoc]

/-- C7: whatever error the single client call produces propagates unchanged
out of `generate` and `generate_stream` — not caught, transformed, retried or
replaced by a partial result — and a successful `generate` returns exactly
the `generated_text` field of the client's result. -/
theorem C7_error_propagation (ε : Type) (q m : String)
    (client : ClientRequest → Except ε GenerateResult)
    (sclient : ClientRequest → Except ε (List StreamResponse)) :
    (∀ req e, generate_request q m = some req → client req = Except.error e →
      Model.generate client q m = some (Except.error e)) ∧
    (∀ req r, generate_request q m = some req → client req = Except.ok r →
      Model.generate client q m = some (Except.ok r.generated_text)) ∧
    (∀ req e, generate_stream_request q m = some req →
      sclient req = Except.error e →
      Model.generate_stream sclient q m = some (Except.error e)) := by
  refine ⟨?_, ?_, ?_⟩ <;> intro req x hreq hcl <;>
    simp [Model.generate, Model.generate_stream, hreq, hcl]

set_option maxRecDepth 10000 in
/-- Witness for C7: a client that fails with error 7 makes `generate` return
that same error. -/
theorem C7_error_propagation_witness :
    Model.generate (fun _ => (Except.error 7 : Except Int GenerateResult))
        "q" "m" = some (Except.error 7) :=
  (C7_error_propagation Int "q" "m" (fun _ => Except.error 7)
      (fun _ => Except.error 7)).1
    (ClientRequest.mk (SEG0 ++ ("q" ++ (SEG1 ++ ("m" ++ (SEG2 ++ ("q" ++ SEG3)))))) 1024)
    7 (by rfl) rfl

/-- C8: `stop` never raises — each of two sequential calls returns normally —
and once the launcher has exited (as after an effective first `stop`) a
further call sends no signal at all: a no-op. -/
theorem C8_stop_twice (p1 p2 : LauncherProc) :
    (∃ e, Model.stop p1 = Except.ok e) ∧
    (∃ e, Model.stop p2 = Except.ok e) ∧
    (p2.exitCode ≠ none → Model.stop p2 = Except.ok TermEffect.noop) := by
  refine ⟨?_, ?_, ?_⟩
  · cases p1 with
    | mk c => cases c <;> exact ⟨_, rfl⟩
  · cases p2 with
    | mk c => cases c <;> exact ⟨_, rfl⟩
  · intro h
    cases p2 with
    | mk c =>
      cases c with
      | none => exact absurd rfl h
      | some v => rfl

/-- Witness for C8: stopping an already-exited launcher is a no-op. -/
theorem C8_stop_twice_witness :
    Model.stop (LauncherProc.mk (some 0)) = Except.ok TermEffect.noop :=
  (C8_stop_twice (LauncherProc.mk none) (LauncherProc.mk (some 0))).2.2 (by decide)

/-- C9: both `generate` and `generate_stream` call the client with the
generation limit `max_new_tokens` fixed at 1024; the request builders take no
caller-supplied limit, so no call can request more. -/
theorem C9_max_new_tokens (q m : String) :
    ∃ req sreq, generate_request q m = some req ∧
      generate_stream_request q m = some sreq ∧
      req.max_new_tokens = 1024 ∧ sreq.max_new_tokens = 1024 := by
  refine ⟨ClientRequest.mk (SEG0 ++ (q ++ (SEG1 ++ (m ++ (SEG2 ++ (q ++ SEG3)))))) 1024,
    ClientRequest.mk (SEG0 ++ (q ++ (SEG1 ++ (m ++ (SEG2 ++ (q ++ SEG3)))))) 1024,
    ?_, ?_, rfl, rfl⟩ <;>
    simp [generate_request, generate_stream_request, render_prompt_eq]

/-- C10: for the same inputs, `generate` and `generate_stream` build the
identical client request — in particular they submit the identical rendered
prompt — because both delegate to `generate_prompt` with the same
arguments. -/
theorem C10_same_request (q m : String) :
    generate_request q m = generate_stream_request q m ∧
    ∃ req, generate_request q m = some req := by
  refine ⟨rfl,
    ClientRequest.mk (SEG0 ++ (q ++ (SEG1 ++ (m ++ (SEG2 ++ (q ++ SEG3)))))) 1024, ?_⟩
  simp [generate_request, render_prompt_eq]
